import Mathlib

/-!
Verification of the `lang-c` abstract syntax tree data model (`src/ast.rs`).

The repository is a definitional layer: Rust type declarations for a C11
AST with GNU extensions.  The embedding below mirrors those declarations:

* non-recursive ("leaf") Rust types become ordinary Lean structures and
  inductives, keeping all names;
* the 32 mutually recursive tree types (everything from `Expression` to
  `TypeOf`) become ONE index-tagged inductive `Ent : Ty → Type`: the tag
  `Ty` names the Rust type, and each Rust constructor `T::V` becomes the
  constructor `Ent.T_V : … → Ent .t`.  This defunctionalised presentation
  of the mutual group keeps elaboration and kernel checking tractable
  while preserving the constructor/field correspondence one-to-one;
* `Vec<T>` → `List T`, `Option<T>` → `Option T`, `Box<T>` → `T`
  (boxing is a Rust memory-layout device with no semantic content),
  `String` → `String`;
* `Node<T>` (the span wrapper of the external `span` crate, modelled from
  the spec since that crate is not among the repository's sources) is the
  polymorphic structure `Node` for leaf payloads, and — for members of
  the recursive group, where Lean cannot nest the structure — the tag
  `Ty.nd` with the constructor `Ent.node`, carrying exactly the same two
  fields (value and span).  `Ent.nodeVal` / `Ent.nodeSpan` mirror the
  `node` / `span` field accesses.

The abbreviations `Expression := Ent .expression`, …, restate the Rust
type names, so every Rust type keeps its source name.
-/

namespace Ast

/-- Modelled from the spec: the source span of the external `span` crate
(a byte range); the crate itself is not among the repository's sources. -/
structure Span where
  start : Nat
  stop : Nat
deriving DecidableEq, Repr

/-- Modelled from the spec: `Node<T>` of the external `span` crate pairs a
value of type `T` with its source span. -/
structure Node (α : Type) where
  node : α
  span : Span
deriving DecidableEq, Repr

/-- `Identifier` (ast.rs): variable, function and other names, a name string. -/
structure Identifier where
  name : String
deriving DecidableEq, Repr

/-- `Integer` (ast.rs): integer number literal, stored as literal text. -/
inductive Integer where
  | Decimal : String → Integer
  | Octal : String → Integer
  | Hexademical : String → Integer
deriving DecidableEq, Repr

/-- `Float` (ast.rs): floating point number literal, stored as literal text. -/
inductive Float where
  | Decimal : String → Float
  | Hexademical : String → Float
deriving DecidableEq, Repr

/-- `Constant` (ast.rs): constant literals. -/
inductive Constant where
  | Integer : Integer → Constant
  | Float : Float → Constant
  | Character : String → Constant
deriving DecidableEq, Repr

/-- `StringLiteral` (ast.rs): `pub type StringLiteral = Vec<String>;`. -/
abbrev StringLiteral := List String

/-- `MemberOperator` (ast.rs): struct or union member access. -/
inductive MemberOperator where
  | Direct : MemberOperator
  | Indirect : MemberOperator
deriving DecidableEq, Repr

/-- `UnaryOperator` (ast.rs): all operators with one operand. -/
inductive UnaryOperator where
  | PostIncrement : UnaryOperator
  | PostDecrement : UnaryOperator
  | PreIncrement : UnaryOperator
  | PreDecrement : UnaryOperator
  | Address : UnaryOperator
  | Indirection : UnaryOperator
  | Plus : UnaryOperator
  | Minus : UnaryOperator
  | Complement : UnaryOperator
  | Negate : UnaryOperator
  | SizeOf : UnaryOperator
deriving DecidableEq, Repr

/-- `BinaryOperator` (ast.rs): all operators with two operands. -/
inductive BinaryOperator where
  | Index : BinaryOperator
  | Multiply : BinaryOperator
  | Divide : BinaryOperator
  | Modulo : BinaryOperator
  | Plus : BinaryOperator
  | Minus : BinaryOperator
  | ShiftLeft : BinaryOperator
  | ShiftRight : BinaryOperator
  | Less : BinaryOperator
  | Greater : BinaryOperator
  | LessOrEqual : BinaryOperator
  | GreaterOrEqual : BinaryOperator
  | Equals : BinaryOperator
  | NotEquals : BinaryOperator
  | BitwiseAnd : BinaryOperator
  | BitwiseXor : BinaryOperator
  | BitwiseOr : BinaryOperator
  | LogicalAnd : BinaryOperator
  | LogicalOr : BinaryOperator
  | Assign : BinaryOperator
  | AssignMultiply : BinaryOperator
  | AssignDivide : BinaryOperator
  | AssignModulo : BinaryOperator
  | AssignPlus : BinaryOperator
  | AssignMinus : BinaryOperator
  | AssignShiftLeft : BinaryOperator
  | AssignShiftRight : BinaryOperator
  | AssignBitwiseAnd : BinaryOperator
  | AssignBitwiseXor : BinaryOperator
  | AssignBitwiseOr : BinaryOperator
deriving DecidableEq, Repr

/-- `StorageClassSpecifier` (ast.rs). -/
inductive StorageClassSpecifier where
  | Typedef : StorageClassSpecifier
  | Extern : StorageClassSpecifier
  | Static : StorageClassSpecifier
  | ThreadLocal : StorageClassSpecifier
  | Auto : StorageClassSpecifier
  | Register : StorageClassSpecifier
deriving DecidableEq, Repr

/-- `StructType` (ast.rs): the only difference between a `struct` and a `union`. -/
inductive StructType where
  | Struct : StructType
  | Union : StructType
deriving DecidableEq, Repr

/-- `TypeQualifier` (ast.rs). -/
inductive TypeQualifier where
  | Const : TypeQualifier
  | Restrict : TypeQualifier
  | Volatile : TypeQualifier
  | Atomic : TypeQualifier
deriving DecidableEq, Repr

/-- `FunctionSpecifier` (ast.rs). -/
inductive FunctionSpecifier where
  | Inline : FunctionSpecifier
  | Noreturn : FunctionSpecifier
deriving DecidableEq, Repr

/-- `Ellipsis` (ast.rs): whether a function signature ends with a `...`. -/
inductive Ellipsis where
  | Some : Ellipsis
  | None : Ellipsis
deriving DecidableEq, Repr

/-- Tags naming the 32 mutually recursive ast.rs tree types, plus `nd τ`
for "`Node<τ>` of a recursive tree type". -/
inductive Ty where
  | expression | genericAssociation | offsetDesignator | offsetMember
  | declaration | declarationSpecifier | initDeclarator | typeSpecifier
  | structDeclaration | specifierQualifier | structDeclarator | enumerator
  | alignmentSpecifier | declarator | declaratorKind | derivedDeclarator
  | pointerQualifier | arraySize | parameterDeclaration | typeName
  | initializer | initializerListItem | designator | staticAssert
  | statement | label | forInitializer | blockItem
  | extension | asmStatement | gnuAsmOperand | typeOf
  | nd : Ty → Ty
deriving DecidableEq, Repr

set_option maxHeartbeats 2000000

/-- The mutually recursive tree types of ast.rs as one indexed inductive:
`Ent .t` is the Rust type tagged `t`, and the constructor `Ent.T_V`
transcribes the Rust constructor `T::V` with its exact field types
(`Ent.node` transcribes `Node<T>`'s two fields for recursive children;
leaf children keep the ordinary `Node` structure). -/
inductive Ent : Ty → Type where
  | node : Ent τ → Span → Ent (.nd τ)
  | Expression_Identifier : Node Identifier → Ent .expression
  | Expression_Constant : Node Constant → Ent .expression
  | Expression_StringLiteral : Node StringLiteral → Ent .expression
  | Expression_GenericSelection : Ent (.nd .expression) → List (Ent (.nd .genericAssociation)) → Ent .expression
  | Expression_Member : Node MemberOperator → Ent (.nd .expression) → Node Identifier → Ent .expression
  | Expression_Call : Ent (.nd .expression) → List (Ent (.nd .expression)) → Ent .expression
  | Expression_CompoundLiteral : Ent (.nd .typeName) → List (Ent (.nd .initializer)) → Ent .expression
  | Expression_SizeOf : Ent (.nd .typeName) → Ent .expression
  | Expression_AlignOf : Ent (.nd .typeName) → Ent .expression
  | Expression_UnaryOperator : Node UnaryOperator → Ent (.nd .expression) → Ent .expression
  | Expression_Cast : Ent (.nd .typeName) → Ent (.nd .expression) → Ent .expression
  | Expression_BinaryOperator : Node BinaryOperator → Ent (.nd .expression) → Ent (.nd .expression) → Ent .expression
  | Expression_Conditional : Ent (.nd .expression) → Ent (.nd .expression) → Ent (.nd .expression) → Ent .expression
  | Expression_Comma : List (Ent (.nd .expression)) → Ent .expression
  | Expression_OffsetOf : Ent (.nd .typeName) → Ent (.nd .offsetDesignator) → Ent .expression
  | Expression_VaArg : Ent (.nd .expression) → Ent (.nd .typeName) → Ent .expression
  | Expression_Statement : Ent (.nd .statement) → Ent .expression
  | GenericAssociation_Type : Ent (.nd .typeName) → Ent (.nd .expression) → Ent .genericAssociation
  | GenericAssociation_Default : Ent (.nd .expression) → Ent .genericAssociation
  | OffsetDesignator_mk : Node Identifier → List (Ent (.nd .offsetMember)) → Ent .offsetDesignator
  | OffsetMember_Member : Node Identifier → Ent .offsetMember
  | OffsetMember_IndirectMember : Node Identifier → Ent .offsetMember
  | OffsetMember_Index : Ent (.nd .expression) → Ent .offsetMember
  | Declaration_Declaration : List (Ent (.nd .declarationSpecifier)) → List (Ent (.nd .initDeclarator)) → Ent .declaration
  | Declaration_StaticAssert : Ent (.nd .staticAssert) → Ent .declaration
  | DeclarationSpecifier_StorageClass : Node StorageClassSpecifier → Ent .declarationSpecifier
  | DeclarationSpecifier_TypeSpecifier : Ent (.nd .typeSpecifier) → Ent .declarationSpecifier
  | DeclarationSpecifier_TypeQualifier : Node TypeQualifier → Ent .declarationSpecifier
  | DeclarationSpecifier_Function : Node FunctionSpecifier → Ent .declarationSpecifier
  | DeclarationSpecifier_Alignment : Ent (.nd .alignmentSpecifier) → Ent .declarationSpecifier
  | DeclarationSpecifier_Extension : List (Ent (.nd .extension)) → Ent .declarationSpecifier
  | InitDeclarator_mk : Ent (.nd .declarator) → Option (Ent (.nd .initializer)) → Ent .initDeclarator
  | TypeSpecifier_Void : Ent .typeSpecifier
  | TypeSpecifier_Char : Ent .typeSpecifier
  | TypeSpecifier_Short : Ent .typeSpecifier
  | TypeSpecifier_Int : Ent .typeSpecifier
  | TypeSpecifier_Long : Ent .typeSpecifier
  | TypeSpecifier_Float : Ent .typeSpecifier
  | TypeSpecifier_Double : Ent .typeSpecifier
  | TypeSpecifier_Signed : Ent .typeSpecifier
  | TypeSpecifier_Unsigned : Ent .typeSpecifier
  | TypeSpecifier_Bool : Ent .typeSpecifier
  | TypeSpecifier_Complex : Ent .typeSpecifier
  | TypeSpecifier_Atomic : Ent (.nd .typeName) → Ent .typeSpecifier
  | TypeSpecifier_Struct : Node StructType → Option (Node Identifier) → List (Ent (.nd .structDeclaration)) → Ent .typeSpecifier
  | TypeSpecifier_Enum : Option (Node Identifier) → List (Ent (.nd .enumerator)) → Ent .typeSpecifier
  | TypeSpecifier_TypedefName : Node Identifier → Ent .typeSpecifier
  | TypeSpecifier_TypeOf : Ent (.nd .typeOf) → Ent .typeSpecifier
  | StructDeclaration_Field : List (Ent (.nd .specifierQualifier)) → List (Ent (.nd .structDeclarator)) → Ent .structDeclaration
  | StructDeclaration_StaticAssert : Ent (.nd .staticAssert) → Ent .structDeclaration
  | SpecifierQualifier_TypeSpecifier : Ent (.nd .typeSpecifier) → Ent .specifierQualifier
  | SpecifierQualifier_TypeQualifier : Node TypeQualifier → Ent .specifierQualifier
  | StructDeclarator_mk : Option (Ent (.nd .declarator)) → Option (Ent (.nd .expression)) → Ent .structDeclarator
  | Enumerator_mk : Node Identifier → Option (Ent (.nd .expression)) → Ent .enumerator
  | AlignmentSpecifier_Type : Ent (.nd .typeName) → Ent .alignmentSpecifier
  | AlignmentSpecifier_Constant : Ent (.nd .expression) → Ent .alignmentSpecifier
  | Declarator_mk : Ent (.nd .declaratorKind) → List (Ent (.nd .derivedDeclarator)) → List (Ent (.nd .extension)) → Ent .declarator
  | DeclaratorKind_Abstract : Ent .declaratorKind
  | DeclaratorKind_Identifier : Node Identifier → Ent .declaratorKind
  | DeclaratorKind_Declarator : Ent (.nd .declarator) → Ent .declaratorKind
  | DerivedDeclarator_Pointer : List (Ent (.nd .pointerQualifier)) → Ent .derivedDeclarator
  | DerivedDeclarator_Array : List (Node TypeQualifier) → Ent .arraySize → Ent .derivedDeclarator
  | DerivedDeclarator_Function : List (Ent (.nd .parameterDeclaration)) → Ellipsis → Ent .derivedDeclarator
  | DerivedDeclarator_KRFunction : List (Node Identifier) → Ent .derivedDeclarator
  | PointerQualifier_TypeQualifier : Node TypeQualifier → Ent .pointerQualifier
  | PointerQualifier_Extension : List (Ent (.nd .extension)) → Ent .pointerQualifier
  | ArraySize_Unknown : Ent .arraySize
  | ArraySize_VariableUnknown : Ent .arraySize
  | ArraySize_VariableExpression : Ent (.nd .expression) → Ent .arraySize
  | ArraySize_StaticExpression : Ent (.nd .expression) → Ent .arraySize
  | ParameterDeclaration_mk : List (Ent (.nd .declarationSpecifier)) → Option (Ent (.nd .declarator)) → List (Ent (.nd .extension)) → Ent .parameterDeclaration
  | TypeName_mk : List (Ent (.nd .specifierQualifier)) → Option (Ent (.nd .declarator)) → Ent .typeName
  | Initializer_Expression : Ent (.nd .expression) → Ent .initializer
  | Initializer_List : List (Ent (.nd .initializerListItem)) → Ent .initializer
  | InitializerListItem_mk : List (Ent (.nd .designator)) → Ent (.nd .initializer) → Ent .initializerListItem
  | Designator_Index : Ent (.nd .expression) → Ent .designator
  | Designator_Member : Node Identifier → Ent .designator
  | Designator_Range : Ent (.nd .expression) → Ent (.nd .expression) → Ent .designator
  | StaticAssert_mk : Ent (.nd .expression) → Node StringLiteral → Ent .staticAssert
  | Statement_Labeled : Ent (.nd .label) → Ent (.nd .statement) → Ent .statement
  | Statement_Compound : List (Ent (.nd .blockItem)) → Ent .statement
  | Statement_Expression : Option (Ent (.nd .expression)) → Ent .statement
  | Statement_If : Ent (.nd .expression) → Ent (.nd .statement) → Option (Ent (.nd .statement)) → Ent .statement
  | Statement_Switch : Ent (.nd .expression) → Ent (.nd .statement) → Ent .statement
  | Statement_While : Ent (.nd .expression) → Ent (.nd .statement) → Ent .statement
  | Statement_DoWhile : Ent (.nd .statement) → Ent (.nd .expression) → Ent .statement
  | Statement_For : Ent (.nd .forInitializer) → Option (Ent (.nd .expression)) → Option (Ent (.nd .expression)) → Ent (.nd .statement) → Ent .statement
  | Statement_Goto : Node Identifier → Ent .statement
  | Statement_Continue : Ent .statement
  | Statement_Break : Ent .statement
  | Statement_Return : Option (Ent (.nd .expression)) → Ent .statement
  | Statement_Asm : Ent (.nd .asmStatement) → Ent .statement
  | Label_Identifier : Node Identifier → Ent .label
  | Label_Case : Ent (.nd .expression) → Ent .label
  | Label_Default : Ent .label
  | ForInitializer_Empty : Ent .forInitializer
  | ForInitializer_Expression : Ent (.nd .expression) → Ent .forInitializer
  | ForInitializer_Declaration : Ent (.nd .declaration) → Ent .forInitializer
  | BlockItem_Declaration : Ent (.nd .declaration) → Ent .blockItem
  | BlockItem_Statement : Ent (.nd .statement) → Ent .blockItem
  | Extension_Attribute : Node String → List (Ent (.nd .expression)) → Ent .extension
  | Extension_AsmLabel : Node StringLiteral → Ent .extension
  | AsmStatement_GnuBasic : Node StringLiteral → Ent .asmStatement
  | AsmStatement_GnuExtended : Option (Node TypeQualifier) → Node StringLiteral → List (Ent (.nd .gnuAsmOperand)) → List (Ent (.nd .gnuAsmOperand)) → List (Node StringLiteral) → Ent .asmStatement
  | GnuAsmOperand_mk : Option (Node Identifier) → Node StringLiteral → Ent (.nd .expression) → Ent .gnuAsmOperand
  | TypeOf_Expression : Ent (.nd .expression) → Ent .typeOf
  | TypeOf_Type : Ent (.nd .typeName) → Ent .typeOf

/-- `Expression` (ast.rs, C11 6.5). -/
abbrev Expression := Ent Ty.expression

/-- `GenericAssociation` (ast.rs). -/
abbrev GenericAssociation := Ent Ty.genericAssociation

/-- `OffsetDesignator` (ast.rs). -/
abbrev OffsetDesignator := Ent Ty.offsetDesignator

/-- `OffsetMember` (ast.rs). -/
abbrev OffsetMember := Ent Ty.offsetMember

/-- `Declaration` (ast.rs, C11 6.7). -/
abbrev Declaration := Ent Ty.declaration

/-- `DeclarationSpecifier` (ast.rs). -/
abbrev DeclarationSpecifier := Ent Ty.declarationSpecifier

/-- `InitDeclarator` (ast.rs). -/
abbrev InitDeclarator := Ent Ty.initDeclarator

/-- `TypeSpecifier` (ast.rs, C11 6.7.2). -/
abbrev TypeSpecifier := Ent Ty.typeSpecifier

/-- `StructDeclaration` (ast.rs). -/
abbrev StructDeclaration := Ent Ty.structDeclaration

/-- `SpecifierQualifier` (ast.rs). -/
abbrev SpecifierQualifier := Ent Ty.specifierQualifier

/-- `StructDeclarator` (ast.rs): field declarator for a struct or a union. -/
abbrev StructDeclarator := Ent Ty.structDeclarator

/-- `Enumerator` (ast.rs). -/
abbrev Enumerator := Ent Ty.enumerator

/-- `AlignmentSpecifier` (ast.rs, C11 6.7.5). -/
abbrev AlignmentSpecifier := Ent Ty.alignmentSpecifier

/-- `Declarator` (ast.rs): single item in a declaration. -/
abbrev Declarator := Ent Ty.declarator

/-- `DeclaratorKind` (ast.rs): name of a declarator. -/
abbrev DeclaratorKind := Ent Ty.declaratorKind

/-- `DerivedDeclarator` (ast.rs): modifies declarator type. -/
abbrev DerivedDeclarator := Ent Ty.derivedDeclarator

/-- `PointerQualifier` (ast.rs). -/
abbrev PointerQualifier := Ent Ty.pointerQualifier

/-- `ArraySize` (ast.rs): size of an array in a declaration. -/
abbrev ArraySize := Ent Ty.arraySize

/-- `ParameterDeclaration` (ast.rs): new-style parameter declaration. -/
abbrev ParameterDeclaration := Ent Ty.parameterDeclaration

/-- `TypeName` (ast.rs, C11 6.7.7). -/
abbrev TypeName := Ent Ty.typeName

/-- `Initializer` (ast.rs, C11 6.7.9). -/
abbrev Initializer := Ent Ty.initializer

/-- `InitializerListItem` (ast.rs). -/
abbrev InitializerListItem := Ent Ty.initializerListItem

/-- `Designator` (ast.rs). -/
abbrev Designator := Ent Ty.designator

/-- `StaticAssert` (ast.rs, C11 6.7.10). -/
abbrev StaticAssert := Ent Ty.staticAssert

/-- `Statement` (ast.rs, C11 6.8). -/
abbrev Statement := Ent Ty.statement

/-- `Label` (ast.rs). -/
abbrev Label := Ent Ty.label

/-- `ForInitializer` (ast.rs). -/
abbrev ForInitializer := Ent Ty.forInitializer

/-- `BlockItem` (ast.rs). -/
abbrev BlockItem := Ent Ty.blockItem

/-- `Extension` (ast.rs): extended vendor-specific syntax. -/
abbrev Extension := Ent Ty.extension

/-- `AsmStatement` (ast.rs): inline assembler. -/
abbrev AsmStatement := Ent Ty.asmStatement

/-- `GnuAsmOperand` (ast.rs). -/
abbrev GnuAsmOperand := Ent Ty.gnuAsmOperand

/-- `TypeOf` (ast.rs): type of an expression or type (GNU extension). -/
abbrev TypeOf := Ent Ty.typeOf

/-- `Node::node` for a recursive tree entity: the wrapped value. -/
def Ent.nodeVal : Ent (.nd τ) → Ent τ
  | .node v _ => v

/-- `Node::span` for a recursive tree entity: the wrapper's span. -/
def Ent.nodeSpan : Ent (.nd τ) → Span
  | .node _ s => s

/-- `FunctionDefinition` (ast.rs, C11 6.9.1). -/
structure FunctionDefinition where
  specifiers : List (Ent (.nd .declarationSpecifier))
  declarator : Ent (.nd .declarator)
  declarations : List (Ent (.nd .declaration))
  statement : Ent (.nd .statement)

/-- `ExternalDeclaration` (ast.rs): top-level elements of a C program. -/
inductive ExternalDeclaration where
  | Declaration : Ent (.nd .declaration) → ExternalDeclaration
  | FunctionDefinition : Node FunctionDefinition → ExternalDeclaration

/-- `TranslationUnit` (ast.rs): entire C source file after preprocessing. -/
structure TranslationUnit where
  mk :: (decls : List (Node ExternalDeclaration))

/-- Field accessor for `Declarator.kind` (ast.rs line 586). -/
def Declarator.kind : Declarator → Ent (.nd .declaratorKind)
  | .Declarator_mk k _ _ => k

/-- Field accessor for `Declarator.derived` (ast.rs line 588). -/
def Declarator.derived : Declarator → List (Ent (.nd .derivedDeclarator))
  | .Declarator_mk _ der _ => der

/-- Field accessor for `Declarator.extensions` (ast.rs line 590). -/
def Declarator.extensions : Declarator → List (Ent (.nd .extension))
  | .Declarator_mk _ _ ext => ext

/-- Field accessor for `TypeName.specifiers` (ast.rs line 689). -/
def TypeName.specifiers : TypeName → List (Ent (.nd .specifierQualifier))
  | .TypeName_mk sq _ => sq

/-- Field accessor for `TypeName.declarator` (ast.rs line 690). -/
def TypeName.declarator : TypeName → Option (Ent (.nd .declarator))
  | .TypeName_mk _ d => d

/-- Field accessor for `StructDeclarator.declarator` (ast.rs line 510). -/
def StructDeclarator.declarator : StructDeclarator → Option (Ent (.nd .declarator))
  | .StructDeclarator_mk d _ => d

/-- Field accessor for `StructDeclarator.bit_width` (ast.rs line 511). -/
def StructDeclarator.bit_width : StructDeclarator → Option (Ent (.nd .expression))
  | .StructDeclarator_mk _ w => w

/-- Field accessor for `InitializerListItem.designation` (ast.rs line 709). -/
def InitializerListItem.designation : InitializerListItem → List (Ent (.nd .designator))
  | .InitializerListItem_mk ds _ => ds

/-- Field accessor for `InitializerListItem.initializer` (ast.rs line 710). -/
def InitializerListItem.initializer : InitializerListItem → Ent (.nd .initializer)
  | .InitializerListItem_mk _ i => i

/-!
Reflection of the type declarations themselves, for the claim that every
child entity is stored `Node`-wrapped.  `AstType` lists the types declared
in ast.rs; `fields` transcribes, for each of them, its constructors (in
source order) with the declared type of every field.
-/

/-- Names of the types declared in ast.rs, in source order. -/
inductive AstType where
  | Identifier | Constant | Integer | Float | StringLiteral
  | Expression | MemberOperator | GenericAssociation | UnaryOperator | BinaryOperator
  | OffsetDesignator | OffsetMember
  | Declaration | DeclarationSpecifier | InitDeclarator | StorageClassSpecifier
  | TypeSpecifier | StructType | StructDeclaration | SpecifierQualifier
  | StructDeclarator | Enumerator | TypeQualifier | FunctionSpecifier | AlignmentSpecifier
  | Declarator | DeclaratorKind | DerivedDeclarator | PointerQualifier | ArraySize
  | ParameterDeclaration | Ellipsis | TypeName
  | Initializer | InitializerListItem | Designator | StaticAssert
  | Statement | Label | ForInitializer | BlockItem
  | TranslationUnit | ExternalDeclaration | FunctionDefinition
  | Extension | AsmStatement | GnuAsmOperand | TypeOf
deriving DecidableEq, Repr

/-- Shape of a field's declared Rust type: an ast.rs type under a `Node`
wrapper, an ast.rs type bare, `String`, `Node<String>`, or one of the
containers `Vec`, `Option`, `Box` applied to such a shape. -/
inductive FieldTy where
  | node : AstType → FieldTy
  | bare : AstType → FieldTy
  | string : FieldTy
  | nodeString : FieldTy
  | vec : FieldTy → FieldTy
  | opt : FieldTy → FieldTy
  | box : FieldTy → FieldTy
deriving DecidableEq, Repr

/-- The constructors of each ast.rs type, each with its list of declared
field types, transcribed from ast.rs in source order (a struct counts as
one constructor; the alias `StringLiteral = Vec<String>` as one
constructor holding its underlying type). -/
def fields : AstType → List (List FieldTy)
  | .Identifier => [[.string]]
  | .Constant => [[.bare .Integer], [.bare .Float], [.string]]
  | .Integer => [[.string], [.string], [.string]]
  | .Float => [[.string], [.string]]
  | .StringLiteral => [[.vec .string]]
  | .Expression =>
      [[.node .Identifier],
       [.node .Constant],
       [.node .StringLiteral],
       [.box (.node .Expression), .vec (.node .GenericAssociation)],
       [.node .MemberOperator, .box (.node .Expression), .node .Identifier],
       [.box (.node .Expression), .vec (.node .Expression)],
       [.node .TypeName, .vec (.node .Initializer)],
       [.node .TypeName],
       [.node .TypeName],
       [.node .UnaryOperator, .box (.node .Expression)],
       [.node .TypeName, .box (.node .Expression)],
       [.node .BinaryOperator, .box (.node .Expression), .box (.node .Expression)],
       [.box (.node .Expression), .box (.node .Expression), .box (.node .Expression)],
       [.vec (.node .Expression)],
       [.node .TypeName, .node .OffsetDesignator],
       [.box (.node .Expression), .node .TypeName],
       [.node .Statement]]
  | .MemberOperator => [[], []]
  | .GenericAssociation =>
      [[.node .TypeName, .box (.node .Expression)], [.box (.node .Expression)]]
  | .UnaryOperator => List.replicate 11 []
  | .BinaryOperator => List.replicate 31 []
  | .OffsetDesignator => [[.node .Identifier, .vec (.node .OffsetMember)]]
  | .OffsetMember => [[.node .Identifier], [.node .Identifier], [.node .Expression]]
  | .Declaration =>
      [[.vec (.node .DeclarationSpecifier), .vec (.node .InitDeclarator)],
       [.node .StaticAssert]]
  | .DeclarationSpecifier =>
      [[.node .StorageClassSpecifier],
       [.node .TypeSpecifier],
       [.node .TypeQualifier],
       [.node .FunctionSpecifier],
       [.node .AlignmentSpecifier],
       [.vec (.node .Extension)]]
  | .InitDeclarator => [[.node .Declarator, .opt (.node .Initializer)]]
  | .StorageClassSpecifier => List.replicate 6 []
  | .TypeSpecifier =>
      List.replicate 11 [] ++
      [[.node .TypeName],
       [.node .StructType, .opt (.node .Identifier), .vec (.node .StructDeclaration)],
       [.opt (.node .Identifier), .vec (.node .Enumerator)],
       [.node .Identifier],
       [.node .TypeOf]]
  | .StructType => [[], []]
  | .StructDeclaration =>
      [[.vec (.node .SpecifierQualifier), .vec (.node .StructDeclarator)],
       [.node .StaticAssert]]
  | .SpecifierQualifier => [[.node .TypeSpecifier], [.node .TypeQualifier]]
  | .StructDeclarator => [[.opt (.node .Declarator), .opt (.box (.node .Expression))]]
  | .Enumerator => [[.node .Identifier, .opt (.box (.node .Expression))]]
  | .TypeQualifier => List.replicate 4 []
  | .FunctionSpecifier => [[], []]
  | .AlignmentSpecifier => [[.node .TypeName], [.box (.node .Expression)]]
  | .Declarator =>
      [[.node .DeclaratorKind, .vec (.node .DerivedDeclarator), .vec (.node .Extension)]]
  | .DeclaratorKind => [[], [.node .Identifier], [.box (.node .Declarator)]]
  | .DerivedDeclarator =>
      [[.vec (.node .PointerQualifier)],
       [.vec (.node .TypeQualifier), .bare .ArraySize],
       [.vec (.node .ParameterDeclaration), .bare .Ellipsis],
       [.vec (.node .Identifier)]]
  | .PointerQualifier => [[.node .TypeQualifier], [.vec (.node .Extension)]]
  | .ArraySize => [[], [], [.box (.node .Expression)], [.box (.node .Expression)]]
  | .ParameterDeclaration =>
      [[.vec (.node .DeclarationSpecifier), .opt (.node .Declarator), .vec (.node .Extension)]]
  | .Ellipsis => [[], []]
  | .TypeName => [[.vec (.node .SpecifierQualifier), .opt (.node .Declarator)]]
  | .Initializer => [[.box (.node .Expression)], [.vec (.node .InitializerListItem)]]
  | .InitializerListItem => [[.vec (.node .Designator), .box (.node .Initializer)]]
  | .Designator =>
      [[.node .Expression], [.node .Identifier], [.node .Expression, .node .Expression]]
  | .StaticAssert => [[.box (.node .Expression), .node .StringLiteral]]
  | .Statement =>
      [[.node .Label, .box (.node .Statement)],
       [.vec (.node .BlockItem)],
       [.opt (.box (.node .Expression))],
       [.box (.node .Expression), .box (.node .Statement), .opt (.box (.node .Statement))],
       [.box (.node .Expression), .box (.node .Statement)],
       [.box (.node .Expression), .box (.node .Statement)],
       [.box (.node .Statement), .box (.node .Expression)],
       [.node .ForInitializer, .opt (.box (.node .Expression)),
        .opt (.box (.node .Expression)), .box (.node .Statement)],
       [.node .Identifier],
       [],
       [],
       [.opt (.box (.node .Expression))],
       [.node .AsmStatement]]
  | .Label => [[.node .Identifier], [.box (.node .Expression)], []]
  | .ForInitializer => [[], [.box (.node .Expression)], [.node .Declaration]]
  | .BlockItem => [[.node .Declaration], [.node .Statement]]
  | .TranslationUnit => [[.vec (.node .ExternalDeclaration)]]
  | .ExternalDeclaration => [[.node .Declaration], [.node .FunctionDefinition]]
  | .FunctionDefinition =>
      [[.vec (.node .DeclarationSpecifier), .node .Declarator,
        .vec (.node .Declaration), .node .Statement]]
  | .Extension => [[.nodeString, .vec (.node .Expression)], [.node .StringLiteral]]
  | .AsmStatement =>
      [[.node .StringLiteral],
       [.opt (.node .TypeQualifier), .node .StringLiteral, .vec (.node .GnuAsmOperand),
        .vec (.node .GnuAsmOperand), .vec (.node .StringLiteral)]]
  | .GnuAsmOperand => [[.opt (.node .Identifier), .node .StringLiteral, .node .Expression]]
  | .TypeOf => [[.node .Expression], [.node .TypeName]]

/-- A field type holds no bare ast.rs entity: every ast.rs type it mentions
sits directly under a `Node` wrapper (`String` mentions no ast.rs type). -/
def FieldTy.wrapped : FieldTy → Bool
  | .node _ => true
  | .bare _ => false
  | .string => true
  | .nodeString => true
  | .vec t => t.wrapped
  | .opt t => t.wrapped
  | .box t => t.wrapped

/-- Every field of every constructor of the given ast.rs type stores its
child entities `Node`-wrapped. -/
def nodeWrapped (t : AstType) : Bool :=
  (fields t).all fun c => c.all FieldTy.wrapped

/-- The ast.rs entities a field type mentions without a `Node` wrapper. -/
def FieldTy.bareEntities : FieldTy → List AstType
  | .node _ => []
  | .bare e => [e]
  | .string => []
  | .nodeString => []
  | .vec t => t.bareEntities
  | .opt t => t.bareEntities
  | .box t => t.bareEntities

/-- All bare (un-`Node`-wrapped) entity occurrences in the declared fields
of the given ast.rs type, in source order. -/
def bareOccurrences (t : AstType) : List AstType :=
  ((fields t).map fun c => (c.map FieldTy.bareEntities).flatten).flatten

/-!
Concrete example values used by the theorems below.
-/

/-- A dummy source span for example values; the claims under study concern
entity structure, not span metadata. -/
def sp : Span := ⟨0, 0⟩

/-- The expression `a = b` (one assignment of the spec's comma scenario). -/
def assignAB : Expression :=
  .Expression_BinaryOperator ⟨.Assign, sp⟩
    (.node (.Expression_Identifier ⟨⟨"a"⟩, sp⟩) sp)
    (.node (.Expression_Identifier ⟨⟨"b"⟩, sp⟩) sp)

/-- The expression `c = d` (the other assignment of the comma scenario). -/
def assignCD : Expression :=
  .Expression_BinaryOperator ⟨.Assign, sp⟩
    (.node (.Expression_Identifier ⟨⟨"c"⟩, sp⟩) sp)
    (.node (.Expression_Identifier ⟨⟨"d"⟩, sp⟩) sp)

/-- The comma expression `a = b, c = d`. -/
def commaExample : Expression := .Expression_Comma [.node assignAB sp, .node assignCD sp]

/-- The expression statement `a = b, c = d;`. -/
def commaStatement : Statement := .Statement_Expression (some (.node commaExample sp))

/-- A declarator naming the identifier `x`, with no derived modifiers. -/
def namedDeclarator : Declarator :=
  .Declarator_mk (.node (.DeclaratorKind_Identifier ⟨⟨"x"⟩, sp⟩) sp) [] []

/-- A `TypeName` whose declarator is present but named (kind is not
`Abstract`): the type accepts it. -/
def namedTypeName : TypeName := .TypeName_mk [] (some (.node namedDeclarator sp))

/-- A declarator whose derived chain pairs a K&R identifier-list modifier
with a new-style function modifier — a structural-invariant violation the
types accept. -/
def mixedDeclarator : Declarator :=
  .Declarator_mk (.node (.DeclaratorKind_Identifier ⟨⟨"f"⟩, sp⟩) sp)
    [.node (.DerivedDeclarator_KRFunction [⟨⟨"x"⟩, sp⟩]) sp,
     .node (.DerivedDeclarator_Function [] .None) sp] []

/-- A declarator carrying a new-style function modifier. -/
def newStyleDeclarator : Declarator :=
  .Declarator_mk (.node (.DeclaratorKind_Identifier ⟨⟨"g"⟩, sp⟩) sp)
    [.node (.DerivedDeclarator_Function [] .None) sp] []

/-- A (degenerate) declaration, standing for a K&R parameter-type
declaration list entry. -/
def krDeclaration : Ent (.nd .declaration) := .node (.Declaration_Declaration [] []) sp

/-- A function definition whose declarator carries new-style parameters
while its `declarations` field is non-empty — a structural-invariant
violation the types accept. -/
def mixedFunctionDefinition : FunctionDefinition :=
  ⟨[], .node newStyleDeclarator sp, [krDeclaration], .node (.Statement_Compound []) sp⟩

/-- The integer constant expression `3`, wrapped as a node. -/
def bitWidthThree : Ent (.nd .expression) :=
  .node (.Expression_Constant ⟨.Integer (.Decimal "3"), sp⟩) sp

/-- An initializer holding the expression `3`, wrapped as a node. -/
def initThree : Ent (.nd .initializer) := .node (.Initializer_Expression bitWidthThree) sp

/-- Claim C1: every `Declarator` value is composed of exactly three parts —
a `kind` that is one of the three `DeclaratorKind` forms (abstract, named
identifier, nested declarator), an ordered `derived` sequence each element
of which is one of the four `DerivedDeclarator` forms (pointer, array,
function, K&R identifier list), and an `extensions` list; no other
declarator shape is constructible. -/
theorem declarator_three_parts (d : Declarator) :
    (∃ k der ext, d = .Declarator_mk k der ext ∧ Declarator.kind d = k ∧
        Declarator.derived d = der ∧ Declarator.extensions d = ext) ∧
    (Ent.nodeVal (Declarator.kind d) = .DeclaratorKind_Abstract ∨
      (∃ i, Ent.nodeVal (Declarator.kind d) = .DeclaratorKind_Identifier i) ∨
      (∃ inner, Ent.nodeVal (Declarator.kind d) = .DeclaratorKind_Declarator inner)) ∧
    (∀ m ∈ Declarator.derived d,
      (∃ q, Ent.nodeVal m = .DerivedDeclarator_Pointer q) ∨
      (∃ q s, Ent.nodeVal m = .DerivedDeclarator_Array q s) ∨
      (∃ ps e, Ent.nodeVal m = .DerivedDeclarator_Function ps e) ∨
      (∃ ids, Ent.nodeVal m = .DerivedDeclarator_KRFunction ids)) := by
  cases d with
  | Declarator_mk k der ext =>
    refine ⟨⟨k, der, ext, rfl, rfl, rfl, rfl⟩, ?_, ?_⟩
    · cases k with
      | node kv ks =>
        cases kv with
        | DeclaratorKind_Abstract => exact Or.inl rfl
        | DeclaratorKind_Identifier i => exact Or.inr (Or.inl ⟨i, rfl⟩)
        | DeclaratorKind_Declarator inner => exact Or.inr (Or.inr ⟨inner, rfl⟩)
    · intro m hm
      cases m with
      | node mv ms =>
        cases mv with
        | DerivedDeclarator_Pointer q => exact Or.inl ⟨q, rfl⟩
        | DerivedDeclarator_Array q s => exact Or.inr (Or.inl ⟨q, s, rfl⟩)
        | DerivedDeclarator_Function ps e => exact Or.inr (Or.inr (Or.inl ⟨ps, e, rfl⟩))
        | DerivedDeclarator_KRFunction ids => exact Or.inr (Or.inr (Or.inr ⟨ids, rfl⟩))

/-- Claim C2, counterexample: it is not the case that every field of every
ast.rs type stores its child entities `Node`-wrapped — `DerivedDeclarator`
stores a bare `ArraySize` (and a bare `Ellipsis`), and `Constant` stores
bare `Integer` and `Float` payloads. -/
theorem node_wrapping_cex : ¬ (∀ t : AstType, nodeWrapped t = true) := by
  intro h
  exact absurd (h .DerivedDeclarator) (by decide)

/-- Claim C2, amended: every field that holds a child entity holds it
`Node`-wrapped, except exactly four bare payload positions —
`Constant::Integer` (bare `Integer`), `Constant::Float` (bare `Float`),
`DerivedDeclarator::Array`'s `size` (bare `ArraySize`), and
`DerivedDeclarator::Function`'s `ellipsis` (bare `Ellipsis`). -/
theorem node_wrapping_amended (t : AstType) :
    bareOccurrences t =
      (if t = .Constant then [.Integer, .Float]
       else if t = .DerivedDeclarator then [.ArraySize, .Ellipsis]
       else []) := by
  cases t <;> decide

/-- Claim C3, counterexample: the `TypeName` type does not force a present
declarator to be abstract — `namedTypeName` is a constructible `TypeName`
whose declarator is present with a named (non-`Abstract`) kind. -/
theorem typename_abstract_cex :
    ¬ (∀ (t : TypeName) (d : Ent (.nd .declarator)),
        TypeName.declarator t = some d →
        Ent.nodeVal (Declarator.kind (Ent.nodeVal d)) = .DeclaratorKind_Abstract) := by
  intro h
  exact Ent.noConfusion (h namedTypeName (.node namedDeclarator sp) rfl)

/-- Claim C3, amended: a `TypeName` consists of specifier-qualifiers plus
an optional declarator, and the type places no restriction on a present
declarator's kind — declarators of any kind, named ones included, are
accepted; abstractness is a contract on the producing parser, not enforced
by the type. -/
theorem typename_declarator_unrestricted :
    (∀ t : TypeName, ∃ sq od, t = .TypeName_mk sq od ∧
        TypeName.specifiers t = sq ∧ TypeName.declarator t = od) ∧
    (∀ (sq : List (Ent (.nd .specifierQualifier))) (d : Ent (.nd .declarator)),
        TypeName.declarator (.TypeName_mk sq (some d)) = some d) ∧
    TypeName.declarator namedTypeName = some (.node namedDeclarator sp) ∧
    Ent.nodeVal (Declarator.kind namedDeclarator) = .DeclaratorKind_Identifier ⟨⟨"x"⟩, sp⟩ := by
  refine ⟨?_, fun sq d => rfl, rfl, rfl⟩
  intro t
  cases t with
  | TypeName_mk sq od => exact ⟨sq, od, rfl, rfl, rfl⟩

/-- Claim C4: `Expression::Comma` holds one flat ordered list of operand
expressions, and the statement `a = b, c = d;` is represented as a comma
of the two assignment expressions in left-to-right order — not as a nested
binary-operator application. -/
theorem comma_flat_sequence :
    (∃ es : List (Ent (.nd .expression)),
        commaExample = .Expression_Comma es ∧ es.map Ent.nodeVal = [assignAB, assignCD]) ∧
    (∀ (op : Node BinaryOperator) (l r : Ent (.nd .expression)),
        commaExample ≠ .Expression_BinaryOperator op l r) ∧
    commaStatement =
      .Statement_Expression
        (some (.node (.Expression_Comma [.node assignAB sp, .node assignCD sp]) sp)) := by
  refine ⟨⟨[.node assignAB sp, .node assignCD sp], rfl, rfl⟩, ?_, rfl⟩
  intro op l r h
  exact Ent.noConfusion h

/-- Claim C5: every initializer-list item carries a possibly-empty ordered
designator list before its nested initializer; positional (empty list) and
designated (non-empty list) items are distinguishable on each item in
isolation; designators are index, member, or GNU range, and the range form
stores both endpoints as (unevaluated) expression nodes. -/
theorem initializer_item_designation :
    (∀ item : InitializerListItem,
        ∃ ds i, item = .InitializerListItem_mk ds i ∧
          InitializerListItem.designation item = ds ∧
          InitializerListItem.initializer item = i) ∧
    (∀ g : Designator,
        (∃ e, g = .Designator_Index e) ∨ (∃ i, g = .Designator_Member i) ∨
        (∃ lo hi, g = .Designator_Range lo hi)) ∧
    (∀ (ds : List (Ent (.nd .designator))) (i : Ent (.nd .initializer)),
        (InitializerListItem.designation (.InitializerListItem_mk ds i)).isEmpty =
          ds.isEmpty) ∧
    (∀ lo hi : Ent (.nd .expression), ∃ g : Designator, g = .Designator_Range lo hi) ∧
    (InitializerListItem.designation (.InitializerListItem_mk [] initThree)).isEmpty
      = true ∧
    (InitializerListItem.designation
        (.InitializerListItem_mk [.node (.Designator_Member ⟨⟨"m"⟩, sp⟩) sp] initThree)).isEmpty
      = false := by
  refine ⟨?_, ?_, fun ds i => rfl, fun lo hi => ⟨_, rfl⟩, rfl, rfl⟩
  · intro item
    cases item with
    | InitializerListItem_mk ds i => exact ⟨ds, i, rfl, rfl, rfl⟩
  · intro g
    cases g with
    | Designator_Index e => exact Or.inl ⟨e, rfl⟩
    | Designator_Member i => exact Or.inr (Or.inl ⟨i, rfl⟩)
    | Designator_Range lo hi => exact Or.inr (Or.inr ⟨lo, hi, rfl⟩)

/-- Claim C6: a `Constant` is exactly one of an integer literal (decimal,
octal, or hexadecimal), a float literal (decimal or hexadecimal), or a
character literal, and every variant stores the literal source text as a
string — no variant carries an evaluated numeric value. -/
theorem constant_literal_text (c : Constant) :
    ∃ s : String,
      c = .Integer (.Decimal s) ∨ c = .Integer (.Octal s) ∨
      c = .Integer (.Hexademical s) ∨ c = .Float (.Decimal s) ∨
      c = .Float (.Hexademical s) ∨ c = .Character s := by
  cases c with
  | Integer i =>
    cases i with
    | Decimal s => exact ⟨s, Or.inl rfl⟩
    | Octal s => exact ⟨s, Or.inr (Or.inl rfl)⟩
    | Hexademical s => exact ⟨s, Or.inr (Or.inr (Or.inl rfl))⟩
  | Float f =>
    cases f with
    | Decimal s => exact ⟨s, Or.inr (Or.inr (Or.inr (Or.inl rfl)))⟩
    | Hexademical s => exact ⟨s, Or.inr (Or.inr (Or.inr (Or.inr (Or.inl rfl))))⟩
  | Character s => exact ⟨s, Or.inr (Or.inr (Or.inr (Or.inr (Or.inr rfl))))⟩

/-- Claim C7: the types perform no validation — a declarator whose derived
chain pairs a `KRFunction` modifier with a new-style `Function` modifier is
a constructible value, and so is a `FunctionDefinition` carrying new-style
parameters in its declarator together with a non-empty K&R `declarations`
list; the system defines no operation that detects or rejects them. -/
theorem invalid_combinations_constructible :
    (∃ m ∈ Declarator.derived mixedDeclarator,
        ∃ ids, Ent.nodeVal m = .DerivedDeclarator_KRFunction ids) ∧
    (∃ m ∈ Declarator.derived mixedDeclarator,
        ∃ ps e, Ent.nodeVal m = .DerivedDeclarator_Function ps e) ∧
    (∃ m ∈ Declarator.derived (Ent.nodeVal mixedFunctionDefinition.declarator),
        ∃ ps e, Ent.nodeVal m = .DerivedDeclarator_Function ps e) ∧
    mixedFunctionDefinition.declarations.length = 1 := by
  refine ⟨⟨.node (.DerivedDeclarator_KRFunction [⟨⟨"x"⟩, sp⟩]) sp,
      List.Mem.head _, ⟨_, rfl⟩⟩,
    ⟨.node (.DerivedDeclarator_Function [] .None) sp,
      List.Mem.tail _ (List.Mem.head _), ⟨_, _, rfl⟩⟩,
    ⟨.node (.DerivedDeclarator_Function [] .None) sp,
      List.Mem.head _, ⟨_, _, rfl⟩⟩, rfl⟩

/-- Claim C8: the two size-of forms are structurally distinct and cannot be
confused — `sizeof(type)` lives only in the `Expression::SizeOf` variant
carrying a `TypeName`, while `sizeof expr` lives only in an
`Expression::UnaryOperator` application of `UnaryOperator::SizeOf` to an
expression operand; each form determines its payload. -/
theorem sizeof_two_forms :
    (∀ (tn : Ent (.nd .typeName)) (op : Node UnaryOperator) (e : Ent (.nd .expression)),
        Ent.Expression_SizeOf tn ≠ .Expression_UnaryOperator op e) ∧
    (∀ (tn : Ent (.nd .typeName)) (e : Ent (.nd .expression)),
        Ent.Expression_UnaryOperator ⟨.SizeOf, sp⟩ e ≠ .Expression_SizeOf tn) ∧
    (∀ tn₁ tn₂ : Ent (.nd .typeName),
        Ent.Expression_SizeOf tn₁ = .Expression_SizeOf tn₂ → tn₁ = tn₂) ∧
    (∀ (op₁ op₂ : Node UnaryOperator) (e₁ e₂ : Ent (.nd .expression)),
        Ent.Expression_UnaryOperator op₁ e₁ = .Expression_UnaryOperator op₂ e₂ →
          op₁ = op₂ ∧ e₁ = e₂) := by
  refine ⟨fun tn op e h => Ent.noConfusion h,
    fun tn e h => Ent.noConfusion h, ?_, ?_⟩
  · intro tn₁ tn₂ h
    injection h
  · intro op₁ op₂ e₁ e₂ h
    injection h with h1 h2
    exact ⟨h1, h2⟩

/-- Claim C9: the null statement `;` is representable as
`Statement::Expression(None)`, distinct from every other statement form,
and the bare `return;` is representable as `Statement::Return(None)`,
distinct from every `Return(Some(..))`. -/
theorem empty_statement_and_bare_return :
    (∀ (l : Ent (.nd .label)) (s : Ent (.nd .statement)),
        Ent.Statement_Expression none ≠ .Statement_Labeled l s) ∧
    (∀ items : List (Ent (.nd .blockItem)),
        Ent.Statement_Expression none ≠ .Statement_Compound items) ∧
    (∀ e : Ent (.nd .expression),
        Ent.Statement_Expression none ≠ .Statement_Expression (some e)) ∧
    (∀ (c : Ent (.nd .expression)) (t : Ent (.nd .statement))
        (f : Option (Ent (.nd .statement))),
        Ent.Statement_Expression none ≠ .Statement_If c t f) ∧
    (∀ (e : Ent (.nd .expression)) (s : Ent (.nd .statement)),
        Ent.Statement_Expression none ≠ .Statement_Switch e s) ∧
    (∀ (e : Ent (.nd .expression)) (s : Ent (.nd .statement)),
        Ent.Statement_Expression none ≠ .Statement_While e s) ∧
    (∀ (s : Ent (.nd .statement)) (e : Ent (.nd .expression)),
        Ent.Statement_Expression none ≠ .Statement_DoWhile s e) ∧
    (∀ (fi : Ent (.nd .forInitializer)) (c st : Option (Ent (.nd .expression)))
        (s : Ent (.nd .statement)),
        Ent.Statement_Expression none ≠ .Statement_For fi c st s) ∧
    (∀ i : Node Identifier, Ent.Statement_Expression none ≠ .Statement_Goto i) ∧
    Ent.Statement_Expression none ≠ .Statement_Continue ∧
    Ent.Statement_Expression none ≠ .Statement_Break ∧
    (∀ e : Option (Ent (.nd .expression)),
        Ent.Statement_Expression none ≠ .Statement_Return e) ∧
    (∀ a : Ent (.nd .asmStatement), Ent.Statement_Expression none ≠ .Statement_Asm a) ∧
    (∀ e : Ent (.nd .expression),
        Ent.Statement_Return none ≠ .Statement_Return (some e)) := by
  refine ⟨fun l s h => Ent.noConfusion h,
    fun items h => Ent.noConfusion h,
    ?_,
    fun c t f h => Ent.noConfusion h,
    fun e s h => Ent.noConfusion h,
    fun e s h => Ent.noConfusion h,
    fun s e h => Ent.noConfusion h,
    fun fi c st s h => Ent.noConfusion h,
    fun i h => Ent.noConfusion h,
    fun h => Ent.noConfusion h,
    fun h => Ent.noConfusion h,
    fun e h => Ent.noConfusion h,
    fun a h => Ent.noConfusion h,
    ?_⟩
  · intro e h
    injection h with h2
    exact Option.noConfusion h2
  · intro e h
    injection h with h2
    exact Option.noConfusion h2

/-- Claim C10: in a `StructDeclarator` the declarator and the bit-width are
independently optional — an anonymous bit-field (bit-width present,
declarator absent) is constructible, and so is the degenerate value with
both absent; neither field's presence is required by the type. -/
theorem struct_declarator_independent_options :
    (∀ (od : Option (Ent (.nd .declarator))) (ob : Option (Ent (.nd .expression))),
        StructDeclarator.declarator (.StructDeclarator_mk od ob) = od ∧
        StructDeclarator.bit_width (.StructDeclarator_mk od ob) = ob) ∧
    (StructDeclarator.declarator (.StructDeclarator_mk none (some bitWidthThree)) = none ∧
     StructDeclarator.bit_width (.StructDeclarator_mk none (some bitWidthThree)) =
       some bitWidthThree) ∧
    (StructDeclarator.declarator (.StructDeclarator_mk none none) = none ∧
     StructDeclarator.bit_width (.StructDeclarator_mk none none) = none) := by
  exact ⟨fun od ob => ⟨rfl, rfl⟩, ⟨rfl, rfl⟩, ⟨rfl, rfl⟩⟩

end Ast
